import Mathlib

/-!
Verification of the girya-storekeeper task-orchestration subsystem.

Shallow embedding of the Python backend:
  * `backend/tasks.py`                          — `TaskStatus`, `Task`, `TaskStore`
  * `backend/features/competitors/service.py`   — `CompetitorsService.search_stock`,
                                                  `CompetitorsService.get_task_status`
  * `backend/services/competitors.py`           — `CompetitorsService.search` (browser session)
  * `backend/services/warehouse.py`             — `RateLimiter`, `WarehouseService._make_request`,
                                                  `search_product`, `search_products`
  * `backend/features/demands/service.py` and `backend/storekeeper.py`
                                                — `prepare_products` (identical in both files)

External effects (HTTP responses, browser attempt outcomes, per-item competitor
search outcomes, wall-clock time) are passed in explicitly as values, so every
definition is executable and the control flow of the Python source is preserved.
Python floats that are only carried through (stock, price) are modelled as `Int`.
-/

namespace Storekeeper

/-- `TaskStatus` enum from `backend/tasks.py`. -/
inductive TaskStatus where
  | not_found
  | running
  | completed
  | failed
deriving DecidableEq, Repr

/-- `CompetitorsProduct` pydantic model from `backend/schemas.py`:
`name : str`, `price : str | None`, `url : str | None`. -/
structure CompetitorsProduct where
  name : String
  price : Option String
  url : Option String
deriving DecidableEq, Repr

/-- `WarehouseStockItem` from `backend/schemas.py`: `name : str`,
`stock : float = None`, `price : float = None` (floats modelled as `Int`). -/
structure WarehouseStockItem where
  name : String
  stock : Option Int
  price : Option Int
deriving DecidableEq, Repr

/-- `StockSearchRow` from `backend/schemas.py`: a `WarehouseStockItem` plus the
three nullable fields describing the competitor match. -/
structure StockSearchRow where
  name : String
  stock : Option Int
  price : Option Int
  found_url : Option String
  found_price : Option String
  found_name : Option String
deriving DecidableEq, Repr

/-- `StockSearchResult` from `backend/schemas.py`. -/
structure StockSearchResult where
  size : Nat
  rows : List StockSearchRow
deriving DecidableEq, Repr

/-- `Task` pydantic model from `backend/tasks.py`.  In the orchestrator the
`result` field only ever holds a `StockSearchResult`, so it is typed that way. -/
structure Task where
  id : String
  owner : String
  status : TaskStatus
  start_time : Option Nat := none
  result : Option StockSearchResult := none
  error : Option String := none
deriving DecidableEq, Repr

/-- The `TaskStore._tasks` dict from `backend/tasks.py`, modelled as a map from
task id to task. -/
def TaskStoreF : Type := String → Option Task

/-- The empty registry (fresh `TaskStore`). -/
def emptyStore : TaskStoreF := fun _ => none

/-- `TaskStore.set_task`: `self._tasks[task_id] = task_data` — an unconditional
write with no ownership check. -/
def set_task (s : TaskStoreF) (task_id : String) (task_data : Task) : TaskStoreF :=
  fun k => if k = task_id then some task_data else s k

/-- `TaskStore.get_task`: returns the stored task only when it exists and its
`owner` equals the requested owner; otherwise `None`. -/
def get_task (s : TaskStoreF) (task_id : String) (owner : String) : Option Task :=
  match s task_id with
  | some task => if task.owner = owner then some task else none
  | none => none

/-- `TaskStore.remove_task`: deletes the entry only when it exists and the
owner matches; otherwise a no-op. -/
def remove_task (s : TaskStoreF) (task_id : String) (owner : String) : TaskStoreF :=
  match s task_id with
  | some task => if task.owner = owner then (fun k => if k = task_id then none else s k) else s
  | none => s

/-! ## Orchestrator: `backend/features/competitors/service.py` -/

/-- Outcome of one `self.competitors.search(item.name)` call inside the
pipeline loop of `CompetitorsService.search_stock`:
either a product, a `CompetitorsSearchException` (the typed search
exception), or any other exception carrying its `str(e)` message. -/
inductive ItemOutcome where
  | found (p : CompetitorsProduct)
  | typedFail
  | unexpected (msg : String)
deriving DecidableEq, Repr

/-- The deterministic task id: the Python f-string
`"competitors_search_" + product_group_id`. -/
def mkTaskId (product_group_id : String) : String :=
  "competitors_search_" ++ product_group_id

/-- The `Task` written by `search_stock` before the pipeline runs:
`RUNNING`, current time, `result=None`, `error=None`. -/
def initialTask (owner product_group_id : String) (now : Nat) : Task :=
  { id := mkTaskId product_group_id
    owner := owner
    status := TaskStatus.running
    start_time := some now
    result := none
    error := none }

/-- The `StockSearchRow` appended when `competitors.search` returns a
product: the warehouse fields plus the product's name, price and url. -/
def foundRow (item : WarehouseStockItem) (p : CompetitorsProduct) : StockSearchRow :=
  { name := item.name
    stock := item.stock
    price := item.price
    found_name := some p.name
    found_price := p.price
    found_url := p.url }

/-- The `StockSearchRow` appended on `CompetitorsSearchException`: all three
found fields `None`. -/
def nullRow (item : WarehouseStockItem) : StockSearchRow :=
  { name := item.name
    stock := item.stock
    price := item.price
    found_name := none
    found_price := none
    found_url := none }

/-- The pipeline loop `for item in warehouse_stock.rows` of `search_stock`:
a found product or a typed search exception appends a row and continues;
any other exception propagates out of the loop with its message. -/
def processRows : List (WarehouseStockItem × ItemOutcome) → Except String (List StockSearchRow)
  | [] => Except.ok []
  | (item, ItemOutcome.found p) :: rest =>
      (processRows rest).map (fun rs => foundRow item p :: rs)
  | (item, ItemOutcome.typedFail) :: rest =>
      (processRows rest).map (fun rs => nullRow item :: rs)
  | (_, ItemOutcome.unexpected msg) :: _ => Except.error msg

/-- The completion write of `search_stock`: re-read the task via
`get_task(task_id, owner)`, set `status = COMPLETED` and `result`, and write
it back.  When the re-read misses (impossible in a sequential run, a crash in
Python) the store is left unchanged. -/
def completePath (s : TaskStoreF) (task_id owner : String) (res : StockSearchResult) : TaskStoreF :=
  match get_task s task_id owner with
  | some task => set_task s task_id { task with status := TaskStatus.completed, result := some res }
  | none => s

/-- The `except Exception` write of `search_stock`: re-read the task, set
`status = FAILED` and `error = str(e)`, and write it back. -/
def failPath (s : TaskStoreF) (task_id owner : String) (msg : String) : TaskStoreF :=
  match get_task s task_id owner with
  | some task => set_task s task_id { task with status := TaskStatus.failed, error := some msg }
  | none => s

/-- The registry write performed at submission time, before the pipeline
body runs: a `RUNNING` record under the deterministic task id. -/
def submitStore (s : TaskStoreF) (owner product_group_id : String) (now : Nat) : TaskStoreF :=
  set_task s (mkTaskId product_group_id) (initialTask owner product_group_id now)

/-- `CompetitorsService.search_stock`, with the environment made explicit:
`fetch` is the outcome of `warehouse.search_stock` together with the
per-item competitor search outcomes.  Returns the updated registry and the
value the coroutine returns (`ok`) or the exception it re-raises (`error`). -/
def search_stock (s : TaskStoreF) (owner product_group_id : String) (now : Nat)
    (fetch : Except String (List (WarehouseStockItem × ItemOutcome))) :
    TaskStoreF × Except String StockSearchResult :=
  let task_id := mkTaskId product_group_id
  let s1 := submitStore s owner product_group_id now
  match fetch with
  | Except.error msg => (failPath s1 task_id owner msg, Except.error msg)
  | Except.ok pairs =>
      match processRows pairs with
      | Except.error msg => (failPath s1 task_id owner msg, Except.error msg)
      | Except.ok rows =>
          let res : StockSearchResult := { size := rows.length, rows := rows }
          (completePath s1 task_id owner res, Except.ok res)

/-- The synthesized task returned by `get_task_status` on a miss:
`Task(id="not_found", owner=self.owner, status=NOT_FOUND)` with all other
fields left at their `None` defaults. -/
def notFoundTask (owner : String) : Task :=
  { id := "not_found", owner := owner, status := TaskStatus.not_found }

/-- `CompetitorsService.get_task_status`: look up by id and owner; on a miss
synthesize the `NOT_FOUND` task; when the task is terminal
(`FAILED`/`COMPLETED`) evict it before returning it. -/
def get_task_status (s : TaskStoreF) (task_id owner : String) : Task × TaskStoreF :=
  match get_task s task_id owner with
  | none => (notFoundTask owner, s)
  | some task =>
      if task.status = TaskStatus.failed ∨ task.status = TaskStatus.completed then
        (task, remove_task s task_id owner)
      else
        (task, s)

/-- Registry states reachable from a fresh process through the orchestrator's
operations: submissions (a full `search_stock` run under any environment) and
status reads. -/
inductive Reachable : TaskStoreF → Prop where
  | init : Reachable emptyStore
  | step_search (s : TaskStoreF) (owner product_group_id : String) (now : Nat)
      (fetch : Except String (List (WarehouseStockItem × ItemOutcome))) :
      Reachable s → Reachable (search_stock s owner product_group_id now fetch).1
  | step_status (s : TaskStoreF) (task_id owner : String) :
      Reachable s → Reachable (get_task_status s task_id owner).2

/-- The task-record invariant: `result` and `error` are never both set, both
are `None` while `RUNNING`, `result` is only set on `COMPLETED` records and
`error` only on `FAILED` records. -/
def TaskOK (t : Task) : Prop :=
  ¬(t.result ≠ none ∧ t.error ≠ none) ∧
  (t.status = TaskStatus.running → t.result = none ∧ t.error = none) ∧
  (t.result ≠ none → t.status = TaskStatus.completed) ∧
  (t.error ≠ none → t.status = TaskStatus.failed)

instance (t : Task) : Decidable (TaskOK t) := by
  unfold TaskOK; infer_instance

/-! ## Browser session: `backend/services/competitors.py` -/

/-- Whether `pat` occurs at the head of `cs`. -/
def headMatches : List Char → List Char → Bool
  | [], _ => true
  | _ :: _, [] => false
  | a :: as, b :: bs => a = b && headMatches as bs

/-- Whether `pat` occurs as a contiguous run anywhere in `cs` — the Python
`pat in s` substring test. -/
def hasSub (pat : List Char) : List Char → Bool
  | [] => pat.isEmpty
  | b :: bs => headMatches pat (b :: bs) || hasSub pat bs

/-- The transport-error test in `CompetitorsService.search`:
`"Connection closed" in str(e) or "Target closed" in str(e)`. -/
def isConnectionError (msg : String) : Bool :=
  hasSub "Connection closed".toList msg.toList || hasSub "Target closed".toList msg.toList

/-- One attempt of the body of `CompetitorsService.search` as seen from the
`except Exception` handler: either the attempt produced a product, or it
raised an exception whose `str(e)` is `msg`. -/
inductive BrowserAttempt where
  | success (p : CompetitorsProduct)
  | failure (msg : String)
deriving DecidableEq, Repr

/-- The retry structure of `CompetitorsService.search`, driven by the trace of
attempt outcomes.  On a transport error (`isConnectionError`) it calls
`_cleanup()` and re-invokes `search` on the remaining trace; on any other
exception it raises `CompetitorsSearchException` (modelled as
`Except.error msg`).  Returns the final outcome (`none` when the trace is
exhausted while still retrying), the number of attempts issued, and the
number of full teardowns (`_cleanup` calls) performed. -/
def browserSearch : List BrowserAttempt → Option (Except String CompetitorsProduct) × Nat × Nat
  | [] => (none, 0, 0)
  | BrowserAttempt.success p :: _ => (some (Except.ok p), 1, 0)
  | BrowserAttempt.failure msg :: rest =>
      if isConnectionError msg then
        let out := browserSearch rest
        (out.1, out.2.1 + 1, out.2.2 + 1)
      else
        (some (Except.error msg), 1, 0)

/-! ## Rate-limited API client: `backend/services/warehouse.py` -/

/-- The rate-limit response headers read by `RateLimiter.update_limits`
(missing headers are the default 0): `X-RateLimit-Remaining`,
`X-RateLimit-Limit`, `X-Lognex-Retry-TimeInterval`, `X-Lognex-Retry-After`
(milliseconds). -/
structure RLHeaders where
  rate_limit_remaining : Nat
  rate_limit : Nat
  retry_time_interval : Nat
  retry_after : Nat
deriving DecidableEq, Repr

/-- `RateLimiter` state: remaining requests, quota, retry interval (ms) and
the absolute reset time (ms), when one is pending. -/
structure RateLimiter where
  remaining_requests : Nat
  limit : Nat
  time_interval : Nat
  reset_time : Option Nat
deriving DecidableEq, Repr

/-- `RateLimiter.update_limits`: copy the three quota headers, and when
`retry-after > 0` set `reset_time = now + retry_after`. -/
def update_limits (rl : RateLimiter) (h : RLHeaders) (now : Nat) : RateLimiter :=
  let rl1 : RateLimiter :=
    { rl with
      remaining_requests := h.rate_limit_remaining
      limit := h.rate_limit
      time_interval := h.retry_time_interval }
  if 0 < h.retry_after then { rl1 with reset_time := some (now + h.retry_after) } else rl1

/-- The second `if` of `RateLimiter.acquire`: when no requests remain and a
time interval is known, sleep that interval. -/
def acquireStep2 (rl : RateLimiter) (now : Nat) : RateLimiter × Nat :=
  if rl.remaining_requests = 0 ∧ 0 < rl.time_interval then (rl, now + rl.time_interval)
  else (rl, now)

/-- `RateLimiter.acquire` with time made explicit (`now` in milliseconds;
`asyncio.sleep` advances the clock): first, if a reset time lies in the
future, sleep until it, clear it and restore `remaining = limit`; then, if
no requests remain and a time interval is known, sleep that interval.
Returns the new limiter state and the time when the caller resumes. -/
def acquire (rl : RateLimiter) (now : Nat) : RateLimiter × Nat :=
  match rl.reset_time with
  | some rt =>
      if now < rt then
        acquireStep2 { rl with reset_time := none, remaining_requests := rl.limit } rt
      else acquireStep2 rl now
  | none => acquireStep2 rl now

/-- One HTTP response as seen by `WarehouseService._make_request`: whether it
was a 429, its rate-limit headers, and whether its body carried the error
code 1073. -/
structure WResponse where
  status429 : Bool
  headers : RLHeaders
  error_code_1073 : Bool
deriving DecidableEq, Repr

/-- The 429 body check of `_make_request`: when the response carries error
code 1073, force `remaining = 0` and `interval = 10000` ms. -/
def handle429 (rl : RateLimiter) (r : WResponse) : RateLimiter :=
  if r.error_code_1073 then { rl with remaining_requests := 0, time_interval := 10000 }
  else rl

/-- `WarehouseService._make_request` driven by the trace of responses:
acquire before the call, update limits from the response; on a 429 apply the
error-code check, acquire again and recurse.  Returns the final limiter
state, the final clock, and the issue time of every request sent (responses
are modelled as instantaneous).  An exhausted trace means the last request's
response is not modelled. -/
def make_request (rl : RateLimiter) (now : Nat) :
    List WResponse → RateLimiter × Nat × List Nat
  | [] =>
      let acq := acquire rl now
      (acq.1, acq.2, [acq.2])
  | r :: rest =>
      let acq := acquire rl now
      let t := acq.2
      let rl2 := update_limits acq.1 r.headers t
      if r.status429 then
        let rl3 := handle429 rl2 r
        let acq2 := acquire rl3 t
        let out := make_request acq2.1 acq2.2 rest
        (out.1, out.2.1, t :: out.2.2)
      else (rl2, t, [t])

/-! ## Warehouse product search: `backend/services/warehouse.py` -/

/-- `WarehouseProduct` from `backend/schemas.py`: every field except `name`
defaults to `None`. -/
structure WarehouseProduct where
  id : Option String
  name : String
  things : Option (List String)
  purchase_price : Option Int
deriving DecidableEq, Repr

/-- One raw row of the catalog search response consumed by
`WarehouseService.search_product` (`id`, `name`, `things`). -/
structure CatalogRow where
  id : Option String
  name : String
  things : Option (List String)
deriving DecidableEq, Repr

/-- `WarehouseService.search_product`: zero catalog hits raise an
HTTP 404 (`Except.error`); otherwise the first row becomes the product
(its `purchase_price` left at the `None` default). -/
def search_product (catalog : String → List CatalogRow) (name : String) :
    Except String WarehouseProduct :=
  match catalog name with
  | [] => Except.error ("Product not found: " ++ name)
  | r :: _ => Except.ok { id := r.id, name := r.name, things := r.things, purchase_price := none }

/-- The `for name, result in zip(batch, batch_results)` loop of
`search_products`: exceptions go to `not_found`, products to `results`. -/
def collectBatch : List (String × Except String WarehouseProduct) →
    List WarehouseProduct × List String
  | [] => ([], [])
  | (name, r) :: rest =>
      let out := collectBatch rest
      match r with
      | Except.error _ => (out.1, name :: out.2)
      | Except.ok p => (p :: out.1, out.2)

/-- `WarehouseService.search_products`: process the names in batches of 3
(`asyncio.gather` with `return_exceptions=True`, modelled sequentially in
submission order), partitioning into (found products, not-found names). -/
def search_products (catalog : String → List CatalogRow) (names : List String) :
    List WarehouseProduct × List String :=
  if h : names = [] then ([], [])
  else
    let batch := names.take 3
    let rest := names.drop 3
    let batch_results := batch.map (fun n => (n, search_product catalog n))
    let br := collectBatch batch_results
    let out := search_products catalog rest
    (br.1 ++ out.1, br.2 ++ out.2)
termination_by names.length
decreasing_by
  simp only [List.length_drop]
  have : names.length ≠ 0 := fun hl => h (List.length_eq_zero.mp hl)
  omega

/-! ## Product matcher: `prepare_products` in
`backend/features/demands/service.py` and `backend/storekeeper.py`
(the two implementations are textually identical). -/

/-- `CsvRow` from `backend/schemas.py` (price in minor units). -/
structure CsvRow where
  idx : Option Int
  serial_number : String
  product_name : String
  purchase_price : Option Int
deriving DecidableEq, Repr

/-- The Python match test `p.things and row.serial_number in p.things`:
`things` must be truthy (present and non-empty) and contain the serial. -/
def rowMatches (row : CsvRow) (p : WarehouseProduct) : Bool :=
  match p.things with
  | some ts => !ts.isEmpty && ts.contains row.serial_number
  | none => false

/-- The product synthesized for a matched row: catalog id, row name,
singleton `things`, row purchase price. -/
def synthProduct (row : CsvRow) (mp : WarehouseProduct) : WarehouseProduct :=
  { id := mp.id
    name := row.product_name
    things := some [row.serial_number]
    purchase_price := row.purchase_price }

/-- `prepare_products`: for each row take the first product whose `things`
contains the row's serial number (`next(...)`), synthesize the adjusted
product, and collect rows with no match into `unmatched_rows`. -/
def prepare_products (rows : List CsvRow) (products : List WarehouseProduct) :
    List WarehouseProduct × List CsvRow :=
  match rows with
  | [] => ([], [])
  | row :: rest =>
      let out := prepare_products rest products
      match products.find? (rowMatches row) with
      | none => (out.1, row :: out.2)
      | some mp => (synthProduct row mp :: out.1, out.2)

/-! ## Derived descriptions used in the statements -/

/-- The row the pipeline loop appends for a non-aborting item outcome: the
found product's data, or the all-null row on a typed search failure. -/
def rowOf : WarehouseStockItem × ItemOutcome → StockSearchRow
  | (item, ItemOutcome.found p) => foundRow item p
  | (item, ItemOutcome.typedFail) => nullRow item
  | (item, ItemOutcome.unexpected _) => nullRow item

/-- The overall outcome of the pipeline body of `search_stock`: a fetch
failure or the outcome of the row loop. -/
def pipelineRows (fetch : Except String (List (WarehouseStockItem × ItemOutcome))) :
    Except String (List StockSearchRow) :=
  match fetch with
  | Except.error msg => Except.error msg
  | Except.ok pairs => processRows pairs

/-- The task record `search_stock` leaves in the registry under the task id. -/
def finalTask (owner product_group_id : String) (now : Nat)
    (fetch : Except String (List (WarehouseStockItem × ItemOutcome))) : Task :=
  match pipelineRows fetch with
  | Except.error msg =>
      { initialTask owner product_group_id now with
          status := TaskStatus.failed, error := some msg }
  | Except.ok rows =>
      { initialTask owner product_group_id now with
          status := TaskStatus.completed,
          result := some { size := rows.length, rows := rows } }

/-- The product `search_product` yields for a name, when the catalog has at
least one hit. -/
def foundOf (catalog : String → List CatalogRow) (n : String) : Option WarehouseProduct :=
  match catalog n with
  | [] => none
  | r :: _ => some { id := r.id, name := r.name, things := r.things, purchase_price := none }

/-! ## Registry lemmas -/

theorem set_task_self (s : TaskStoreF) (task_id : String) (t : Task) :
    set_task s task_id t task_id = some t := by
  simp [set_task]

theorem set_task_other (s : TaskStoreF) (task_id k : String) (t : Task) (hk : k ≠ task_id) :
    set_task s task_id t k = s k := by
  simp [set_task, hk]

theorem get_task_char (s : TaskStoreF) (task_id owner : String) (t : Task) :
    get_task s task_id owner = some t ↔ s task_id = some t ∧ t.owner = owner := by
  unfold get_task
  cases hs : s task_id with
  | none => simp
  | some task =>
      by_cases h : task.owner = owner
      · simp only [h, if_pos, Option.some_inj]
        constructor
        · rintro rfl; exact ⟨rfl, h⟩
        · rintro ⟨h1, _⟩; exact h1
      · simp only [h, if_neg, if_false]
        constructor
        · intro hfalse; cases hfalse
        · rintro ⟨h1, h2⟩
          rw [Option.some_inj.mp h1] at h
          exact absurd h2 h

theorem get_task_none_of_mismatch (s : TaskStoreF) (task_id owner : String)
    (h : ∀ t, s task_id = some t → t.owner ≠ owner) :
    get_task s task_id owner = none := by
  unfold get_task
  cases hs : s task_id with
  | none => rfl
  | some task => simp [h task hs]

theorem remove_task_removes (s : TaskStoreF) (task_id owner : String) (t : Task)
    (hs : s task_id = some t) (how : t.owner = owner) :
    remove_task s task_id owner task_id = none := by
  unfold remove_task
  rw [hs]
  simp [how]

theorem remove_task_sub (s : TaskStoreF) (task_id owner k : String) (t : Task)
    (h : remove_task s task_id owner k = some t) : s k = some t := by
  unfold remove_task at h
  cases hs : s task_id with
  | none => rw [hs] at h; exact h
  | some task =>
      rw [hs] at h
      by_cases how : task.owner = owner
      · by_cases hk : k = task_id
        · simp [how, hk] at h
        · simpa [how, hk] using h
      · simpa [how] using h

theorem get_task_status_sub (s : TaskStoreF) (task_id owner k : String) (t : Task)
    (h : (get_task_status s task_id owner).2 k = some t) : s k = some t := by
  unfold get_task_status at h
  cases hg : get_task s task_id owner with
  | none => rw [hg] at h; exact h
  | some task =>
      rw [hg] at h
      by_cases hterm : task.status = TaskStatus.failed ∨ task.status = TaskStatus.completed
      · rw [show (match some task with
            | none => (notFoundTask owner, s)
            | some task =>
              if task.status = TaskStatus.failed ∨ task.status = TaskStatus.completed then
                (task, remove_task s task_id owner)
              else (task, s)) = (task, remove_task s task_id owner) from if_pos hterm] at h
        exact remove_task_sub s task_id owner k t h
      · rw [show (match some task with
            | none => (notFoundTask owner, s)
            | some task =>
              if task.status = TaskStatus.failed ∨ task.status = TaskStatus.completed then
                (task, remove_task s task_id owner)
              else (task, s)) = (task, s) from if_neg hterm] at h
        exact h

/-! ## Claim theorems about the registry -/

/-- C2: a status read by the matching owner that finds the task in a terminal
state (`COMPLETED` or `FAILED`) returns the task snapshot and evicts the
entry, so a second status read with the same id and owner returns the
synthetic `NOT_FOUND` task: each terminal task is observable exactly once
per owner. -/
theorem terminal_read_evicts (s : TaskStoreF) (task_id owner : String) (t : Task)
    (hget : get_task s task_id owner = some t)
    (hterm : t.status = TaskStatus.completed ∨ t.status = TaskStatus.failed) :
    (get_task_status s task_id owner).1 = t ∧
    (get_task_status (get_task_status s task_id owner).2 task_id owner).1 = notFoundTask owner ∧
    (notFoundTask owner).status = TaskStatus.not_found := by
  obtain ⟨hs, how⟩ := (get_task_char s task_id owner t).mp hget
  have hterm' : t.status = TaskStatus.failed ∨ t.status = TaskStatus.completed := hterm.symm
  have h1 : get_task_status s task_id owner = (t, remove_task s task_id owner) := by
    unfold get_task_status
    rw [hget]
    exact if_pos hterm'
  refine ⟨by rw [h1], ?_, rfl⟩
  rw [h1]
  have hnone : get_task (remove_task s task_id owner) task_id owner = none := by
    apply get_task_none_of_mismatch
    intro u hu
    rw [remove_task_removes s task_id owner t hs how] at hu
    cases hu
  unfold get_task_status
  rw [hnone]

/-- C3: an ownership mismatch is indistinguishable from absence — a registry
`get` with the wrong owner returns `none`, the same value as on the empty
registry — and a status read by a different owner immediately after a
submission returns the `NOT_FOUND` task. -/
theorem owner_isolation :
    (∀ (s : TaskStoreF) (task_id o2 : String) (t : Task),
      s task_id = some t → t.owner ≠ o2 →
      get_task s task_id o2 = none ∧ get_task s task_id o2 = get_task emptyStore task_id o2) ∧
    (∀ (s : TaskStoreF) (product_group_id o1 o2 : String) (now : Nat), o1 ≠ o2 →
      (get_task_status (submitStore s o1 product_group_id now) (mkTaskId product_group_id) o2).1
        = notFoundTask o2) := by
  constructor
  · intro s task_id o2 t hs how
    have hnone : get_task s task_id o2 = none := by
      apply get_task_none_of_mismatch
      intro u hu
      rw [hs] at hu
      rw [← Option.some_inj.mp hu]
      exact how
    exact ⟨hnone, by rw [hnone]; rfl⟩
  · intro s product_group_id o1 o2 now h12
    have hnone : get_task (submitStore s o1 product_group_id now) (mkTaskId product_group_id) o2
        = none := by
      apply get_task_none_of_mismatch
      intro u hu
      rw [submitStore, set_task_self] at hu
      rw [← Option.some_inj.mp hu]
      exact h12
    unfold get_task_status
    rw [hnone]

/-- C9: on a miss (task absent, or present with a different owner) the status
read returns a synthesized task whose id is the literal string `"not_found"`
rather than the queried id, with status `NOT_FOUND` and `start_time`,
`result`, `error` all `None`. -/
theorem status_read_miss_shape (s : TaskStoreF) (task_id owner : String)
    (h : s task_id = none ∨ ∃ t, s task_id = some t ∧ t.owner ≠ owner) :
    (get_task_status s task_id owner).1 =
      { id := "not_found", owner := owner, status := TaskStatus.not_found,
        start_time := none, result := none, error := none } := by
  have hnone : get_task s task_id owner = none := by
    apply get_task_none_of_mismatch
    intro u hu
    rcases h with h0 | ⟨t, ht, how⟩
    · rw [h0] at hu; cases hu
    · rw [ht] at hu
      rw [← Option.some_inj.mp hu]
      exact how
  unfold get_task_status
  rw [hnone]
  rfl

/-- C10: `set_task` performs no ownership check — it unconditionally replaces
whatever entry exists under the id — so a second owner's submission of the
same product group overwrites the first owner's in-flight `RUNNING` record. -/
theorem set_task_no_owner_check :
    (∀ (s : TaskStoreF) (task_id : String) (t : Task), set_task s task_id t task_id = some t) ∧
    (∀ (s : TaskStoreF) (product_group_id o1 o2 : String) (now1 now2 : Nat), o1 ≠ o2 →
      (initialTask o1 product_group_id now1).status = TaskStatus.running ∧
      (submitStore s o1 product_group_id now1) (mkTaskId product_group_id)
        = some (initialTask o1 product_group_id now1) ∧
      (submitStore (submitStore s o1 product_group_id now1) o2 product_group_id now2)
        (mkTaskId product_group_id) = some (initialTask o2 product_group_id now2)) := by
  refine ⟨set_task_self, ?_⟩
  intro s product_group_id o1 o2 now1 now2 _
  exact ⟨rfl, set_task_self _ _ _, set_task_self _ _ _⟩

theorem terminal_read_evicts_witness :
    (get_task_status
        (set_task emptyStore "t1"
          { id := "t1", owner := "own", status := TaskStatus.completed,
            start_time := some 5, result := some { size := 0, rows := [] }, error := none })
        "t1" "own").1 =
      { id := "t1", owner := "own", status := TaskStatus.completed,
        start_time := some 5, result := some { size := 0, rows := [] }, error := none } ∧
    (get_task_status
        (get_task_status
          (set_task emptyStore "t1"
            { id := "t1", owner := "own", status := TaskStatus.completed,
              start_time := some 5, result := some { size := 0, rows := [] }, error := none })
          "t1" "own").2
        "t1" "own").1 = notFoundTask "own" ∧
    (notFoundTask "own").status = TaskStatus.not_found :=
  terminal_read_evicts _ "t1" "own" _ rfl (Or.inl rfl)

theorem owner_isolation_witness :
    (get_task
        (set_task emptyStore "t1"
          { id := "t1", owner := "o1", status := TaskStatus.running,
            start_time := some 0, result := none, error := none })
        "t1" "o2" = none ∧
      get_task
        (set_task emptyStore "t1"
          { id := "t1", owner := "o1", status := TaskStatus.running,
            start_time := some 0, result := none, error := none })
        "t1" "o2" = get_task emptyStore "t1" "o2") ∧
    (get_task_status (submitStore emptyStore "o1" "g" 3) (mkTaskId "g") "o2").1
      = notFoundTask "o2" :=
  ⟨owner_isolation.1 _ "t1" "o2" _ rfl (by decide),
   owner_isolation.2 emptyStore "g" "o1" "o2" 3 (by decide)⟩

theorem status_read_miss_shape_witness :
    (get_task_status emptyStore "x" "o").1 =
      { id := "not_found", owner := "o", status := TaskStatus.not_found,
        start_time := none, result := none, error := none } :=
  status_read_miss_shape emptyStore "x" "o" (Or.inl rfl)

theorem processRows_clean (pairs : List (WarehouseStockItem × ItemOutcome))
    (h : ∀ pr ∈ pairs, ∀ m, pr.2 ≠ ItemOutcome.unexpected m) :
    processRows pairs = Except.ok (pairs.map rowOf) := by
  induction pairs with
  | nil => rfl
  | cons pr rest ih =>
      obtain ⟨item, outcome⟩ := pr
      have hrest : ∀ pr ∈ rest, ∀ m, pr.2 ≠ ItemOutcome.unexpected m :=
        fun x hx => h x (List.mem_cons_of_mem _ hx)
      cases outcome with
      | found p => simp [processRows, ih hrest, Except.map, rowOf]
      | typedFail => simp [processRows, ih hrest, Except.map, rowOf]
      | unexpected m => exact absurd rfl (h _ (List.mem_cons_self _ _) m)

theorem processRows_abort (pre : List (WarehouseStockItem × ItemOutcome))
    (item : WarehouseStockItem) (msg : String)
    (rest : List (WarehouseStockItem × ItemOutcome))
    (h : ∀ pr ∈ pre, ∀ m, pr.2 ≠ ItemOutcome.unexpected m) :
    processRows (pre ++ (item, ItemOutcome.unexpected msg) :: rest) = Except.error msg := by
  induction pre with
  | nil => rfl
  | cons pr pre' ih =>
      obtain ⟨it, outcome⟩ := pr
      have hpre : ∀ pr ∈ pre', ∀ m, pr.2 ≠ ItemOutcome.unexpected m :=
        fun x hx => h x (List.mem_cons_of_mem _ hx)
      cases outcome with
      | found p => simp [processRows, ih hpre, Except.map]
      | typedFail => simp [processRows, ih hpre, Except.map]
      | unexpected m => exact absurd rfl (h _ (List.mem_cons_self _ _) m)

theorem get_task_submit (s : TaskStoreF) (owner product_group_id : String) (now : Nat) :
    get_task (submitStore s owner product_group_id now) (mkTaskId product_group_id) owner
      = some (initialTask owner product_group_id now) := by
  apply (get_task_char _ _ _ _).mpr
  exact ⟨set_task_self _ _ _, rfl⟩

theorem search_stock_store (s : TaskStoreF) (owner product_group_id : String) (now : Nat)
    (fetch : Except String (List (WarehouseStockItem × ItemOutcome))) (k : String) :
    (search_stock s owner product_group_id now fetch).1 k =
      if k = mkTaskId product_group_id then some (finalTask owner product_group_id now fetch)
      else s k := by
  have hfail : ∀ msg,
      failPath (submitStore s owner product_group_id now) (mkTaskId product_group_id) owner msg k
        = if k = mkTaskId product_group_id
          then some { initialTask owner product_group_id now with
                        status := TaskStatus.failed, error := some msg }
          else s k := by
    intro msg
    unfold failPath
    rw [get_task_submit]
    by_cases hk : k = mkTaskId product_group_id
    · rw [hk]; simp [set_task_self]
    · simp [set_task, submitStore, hk]
  have hcomp : ∀ res,
      completePath (submitStore s owner product_group_id now) (mkTaskId product_group_id) owner res k
        = if k = mkTaskId product_group_id
          then some { initialTask owner product_group_id now with
                        status := TaskStatus.completed, result := some res }
          else s k := by
    intro res
    unfold completePath
    rw [get_task_submit]
    by_cases hk : k = mkTaskId product_group_id
    · rw [hk]; simp [set_task_self]
    · simp [set_task, submitStore, hk]
  cases fetch with
  | error msg =>
      simp only [search_stock]
      rw [hfail msg]
      rfl
  | ok pairs =>
      cases hp : processRows pairs with
      | error msg =>
          simp only [search_stock, hp]
          rw [hfail msg]
          simp [finalTask, pipelineRows, hp]
      | ok rows =>
          simp only [search_stock, hp]
          rw [hcomp { size := rows.length, rows := rows }]
          simp [finalTask, pipelineRows, hp]

/-- C1: per-row typed search failures append an all-null row and never fail
the task — with no unexpected exception the pipeline completes with one row
per stock item, the typed-failure items carrying three null found fields —
while any other exception marks the task `FAILED` with its message and
publishes no result (the coroutine re-raises). -/
theorem pipeline_error_policy :
    (∀ (s : TaskStoreF) (owner product_group_id : String) (now : Nat)
        (pairs : List (WarehouseStockItem × ItemOutcome)),
      (∀ pr ∈ pairs, ∀ m, pr.2 ≠ ItemOutcome.unexpected m) →
      (∀ item, rowOf (item, ItemOutcome.typedFail) = nullRow item) ∧
      (search_stock s owner product_group_id now (Except.ok pairs)).2
        = Except.ok { size := (pairs.map rowOf).length, rows := pairs.map rowOf } ∧
      (search_stock s owner product_group_id now (Except.ok pairs)).1 (mkTaskId product_group_id)
        = some { id := mkTaskId product_group_id, owner := owner,
                 status := TaskStatus.completed, start_time := some now,
                 result := some { size := (pairs.map rowOf).length, rows := pairs.map rowOf },
                 error := none }) ∧
    (∀ (s : TaskStoreF) (owner product_group_id : String) (now : Nat)
        (pre : List (WarehouseStockItem × ItemOutcome)) (item : WarehouseStockItem)
        (msg : String) (rest : List (WarehouseStockItem × ItemOutcome)),
      (∀ pr ∈ pre, ∀ m, pr.2 ≠ ItemOutcome.unexpected m) →
      (search_stock s owner product_group_id now
          (Except.ok (pre ++ (item, ItemOutcome.unexpected msg) :: rest))).2
        = Except.error msg ∧
      (search_stock s owner product_group_id now
          (Except.ok (pre ++ (item, ItemOutcome.unexpected msg) :: rest))).1
          (mkTaskId product_group_id)
        = some { id := mkTaskId product_group_id, owner := owner,
                 status := TaskStatus.failed, start_time := some now,
                 result := none, error := some msg }) ∧
    (∀ (s : TaskStoreF) (owner product_group_id : String) (now : Nat) (msg : String),
      (search_stock s owner product_group_id now (Except.error msg)).2 = Except.error msg ∧
      (search_stock s owner product_group_id now (Except.error msg)).1 (mkTaskId product_group_id)
        = some { id := mkTaskId product_group_id, owner := owner,
                 status := TaskStatus.failed, start_time := some now,
                 result := none, error := some msg }) := by
  refine ⟨?_, ?_, ?_⟩
  · intro s owner product_group_id now pairs hclean
    have hp := processRows_clean pairs hclean
    refine ⟨fun item => rfl, ?_, ?_⟩
    · simp only [search_stock, hp]
    · rw [search_stock_store]
      rw [if_pos rfl]
      simp [finalTask, pipelineRows, hp, initialTask]
  · intro s owner product_group_id now pre item msg rest hclean
    have hp := processRows_abort pre item msg rest hclean
    constructor
    · simp only [search_stock, hp]
    · rw [search_stock_store]
      rw [if_pos rfl]
      simp [finalTask, pipelineRows, hp, initialTask]
  · intro s owner product_group_id now msg
    refine ⟨rfl, ?_⟩
    rw [search_stock_store]
    rw [if_pos rfl]
    simp [finalTask, pipelineRows, initialTask]

/-- C8: every task record reachable through the orchestrator's operations
has mutually exclusive `result`/`error`, both `None` while `RUNNING`,
`result` only on `COMPLETED` records and `error` only on `FAILED` records. -/
theorem task_record_invariant (s : TaskStoreF) (hs : Reachable s) :
    ∀ task_id t, s task_id = some t → TaskOK t := by
  induction hs with
  | init =>
      intro task_id t h
      exact absurd h (by simp [emptyStore])
  | step_search s' owner product_group_id now fetch _ ih =>
      intro task_id t h
      rw [search_stock_store] at h
      by_cases hid : task_id = mkTaskId product_group_id
      · rw [if_pos hid] at h
        rw [← Option.some_inj.mp h]
        unfold finalTask
        cases hpr : pipelineRows fetch with
        | error msg => simp [TaskOK, initialTask]
        | ok rows => simp [TaskOK, initialTask]
      · rw [if_neg hid] at h
        exact ih task_id t h
  | step_status s' tid0 owner0 _ ih =>
      intro task_id t h
      exact ih task_id t (get_task_status_sub s' tid0 owner0 task_id t h)

theorem task_record_invariant_witness :
    TaskOK { id := mkTaskId "g", owner := "o", status := TaskStatus.completed,
             start_time := some 7, result := some { size := 0, rows := [] }, error := none } :=
  task_record_invariant (search_stock emptyStore "o" "g" 7 (Except.ok [])).1
    (Reachable.step_search emptyStore "o" "g" 7 (Except.ok []) Reachable.init)
    (mkTaskId "g") _ rfl

theorem pipeline_error_policy_witness :
    ((∀ item, rowOf (item, ItemOutcome.typedFail) = nullRow item) ∧
      (search_stock emptyStore "o" "g" 0
          (Except.ok [({ name := "A", stock := none, price := none }, ItemOutcome.typedFail)])).2
        = Except.ok
            { size := (List.map rowOf
                [({ name := "A", stock := none, price := none }, ItemOutcome.typedFail)]).length,
              rows := List.map rowOf
                [({ name := "A", stock := none, price := none }, ItemOutcome.typedFail)] } ∧
      (search_stock emptyStore "o" "g" 0
          (Except.ok [({ name := "A", stock := none, price := none }, ItemOutcome.typedFail)])).1
          (mkTaskId "g")
        = some { id := mkTaskId "g", owner := "o", status := TaskStatus.completed,
                 start_time := some 0,
                 result := some
                   { size := (List.map rowOf
                       [({ name := "A", stock := none, price := none },
                         ItemOutcome.typedFail)]).length,
                     rows := List.map rowOf
                       [({ name := "A", stock := none, price := none },
                         ItemOutcome.typedFail)] },
                 error := none }) ∧
    ((search_stock emptyStore "o" "g" 0
        (Except.ok ([] ++ ({ name := "A", stock := none, price := none },
          ItemOutcome.unexpected "boom") :: []))).2 = Except.error "boom" ∧
      (search_stock emptyStore "o" "g" 0
          (Except.ok ([] ++ ({ name := "A", stock := none, price := none },
            ItemOutcome.unexpected "boom") :: []))).1 (mkTaskId "g")
        = some { id := mkTaskId "g", owner := "o", status := TaskStatus.failed,
                 start_time := some 0, result := none, error := some "boom" }) :=
  ⟨pipeline_error_policy.1 emptyStore "o" "g" 0
      [({ name := "A", stock := none, price := none }, ItemOutcome.typedFail)]
      (by intro pr hpr m; simp at hpr; subst hpr; simp),
   pipeline_error_policy.2.1 emptyStore "o" "g" 0 []
      { name := "A", stock := none, price := none } "boom" []
      (by intro pr hpr m; simp at hpr)⟩

theorem set_task_no_owner_check_witness :
    (initialTask "o1" "g" 1).status = TaskStatus.running ∧
    (submitStore emptyStore "o1" "g" 1) (mkTaskId "g") = some (initialTask "o1" "g" 1) ∧
    (submitStore (submitStore emptyStore "o1" "g" 1) "o2" "g" 2) (mkTaskId "g")
      = some (initialTask "o2" "g" 2) :=
  set_task_no_owner_check.2 emptyStore "g" "o1" "o2" 1 2 (by decide)

/-! ## Browser session retry behavior -/

/-- C4 counterexample: on the concrete trace transport-failure,
transport-failure, success, the session issues three attempts — the second
transport failure triggers a second automatic retry, refuting "retries the
entire search call exactly once (no second automatic retry on a repeated
transport failure)". -/
theorem browser_retry_counterexample :
    (browserSearch
        [BrowserAttempt.failure "Connection closed",
         BrowserAttempt.failure "Connection closed",
         BrowserAttempt.success { name := "p", price := none, url := none }]).2.1 = 3 ∧
    ¬((browserSearch
        [BrowserAttempt.failure "Connection closed",
         BrowserAttempt.failure "Connection closed",
         BrowserAttempt.success { name := "p", price := none, url := none }]).2.1 ≤ 2) := by
  constructor
  · decide
  · decide

/-- C4 (amended): on a transport error reporting a closed connection or
closed target the session tears its browser resources down and re-invokes
the entire `search`, and it does so again on every further transport
failure, with no bound on the number of retries; a non-transport failure is
wrapped and raised as the typed search exception with no automatic retry. -/
theorem browser_retry_unbounded (msgs : List String)
    (h : ∀ m ∈ msgs, isConnectionError m = true) :
    (∀ (p : CompetitorsProduct) (rest : List BrowserAttempt),
      browserSearch (msgs.map BrowserAttempt.failure ++ (BrowserAttempt.success p :: rest)) =
        (some (Except.ok p), msgs.length + 1, msgs.length)) ∧
    (∀ (m : String) (rest : List BrowserAttempt), isConnectionError m = false →
      browserSearch (msgs.map BrowserAttempt.failure ++ (BrowserAttempt.failure m :: rest)) =
        (some (Except.error m), msgs.length + 1, msgs.length)) ∧
    browserSearch (msgs.map BrowserAttempt.failure) = (none, msgs.length, msgs.length) := by
  induction msgs with
  | nil =>
      refine ⟨fun p rest => rfl, fun m rest hm => ?_, rfl⟩
      simp [browserSearch, hm]
  | cons m0 ms ih =>
      have hm0 : isConnectionError m0 = true := h m0 (List.mem_cons_self _ _)
      have hms : ∀ m ∈ ms, isConnectionError m = true :=
        fun m hm => h m (List.mem_cons_of_mem _ hm)
      obtain ⟨ih1, ih2, ih3⟩ := ih hms
      refine ⟨fun p rest => ?_, fun m rest hm => ?_, ?_⟩
      · simp [browserSearch, hm0, ih1 p rest]
      · simp [browserSearch, hm0, ih2 m rest hm]
      · simp [browserSearch, hm0, ih3]

theorem browser_retry_unbounded_witness :
    browserSearch ((["Connection closed", "Target closed"]).map BrowserAttempt.failure ++
        (BrowserAttempt.success { name := "x", price := none, url := none } :: [])) =
      (some (Except.ok { name := "x", price := none, url := none }),
       (["Connection closed", "Target closed"] : List String).length + 1,
       (["Connection closed", "Target closed"] : List String).length) :=
  (browser_retry_unbounded ["Connection closed", "Target closed"] (by decide)).1
    { name := "x", price := none, url := none } []

/-! ## Rate limiter -/

theorem acquireStep2_le (rl : RateLimiter) (now : Nat) : now ≤ (acquireStep2 rl now).2 := by
  unfold acquireStep2
  split
  · exact Nat.le_add_right _ _
  · exact Nat.le_refl _

theorem acquire_le (rl : RateLimiter) (now : Nat) : now ≤ (acquire rl now).2 := by
  unfold acquire
  cases hr : rl.reset_time with
  | none => exact acquireStep2_le rl now
  | some rt =>
      show now ≤ (if now < rt then
          acquireStep2 { rl with reset_time := none, remaining_requests := rl.limit } rt
        else acquireStep2 rl now).2
      by_cases hlt : now < rt
      · rw [if_pos hlt]
        exact Nat.le_trans (Nat.le_of_lt hlt) (acquireStep2_le _ rt)
      · rw [if_neg hlt]
        exact acquireStep2_le rl now

theorem acquire_reset (rl : RateLimiter) (rt now : Nat) (h : rl.reset_time = some rt) :
    rt ≤ (acquire rl now).2 := by
  unfold acquire
  simp only [h]
  by_cases hlt : now < rt
  · rw [if_pos hlt]
    exact acquireStep2_le _ rt
  · rw [if_neg hlt]
    exact Nat.le_trans (Nat.le_of_not_lt hlt) (acquireStep2_le rl now)

theorem acquire_interval (rl : RateLimiter) (now : Nat) (h : rl.reset_time = none)
    (h0 : rl.remaining_requests = 0) (hi : 0 < rl.time_interval) :
    (acquire rl now).2 = now + rl.time_interval := by
  unfold acquire
  simp only [h]
  unfold acquireStep2
  rw [if_pos ⟨h0, hi⟩]

theorem make_request_head (rl : RateLimiter) (now : Nat) (responses : List WResponse) :
    ∃ t ts, (make_request rl now responses).2.2 = t :: ts ∧ now ≤ t := by
  cases responses with
  | nil => exact ⟨(acquire rl now).2, [], rfl, acquire_le rl now⟩
  | cons r rest =>
      cases h429 : r.status429 with
      | true =>
          simp only [make_request, h429, if_true]
          exact ⟨_, _, rfl, acquire_le rl now⟩
      | false =>
          simp only [make_request, h429]
          exact ⟨_, _, rfl, acquire_le rl now⟩

/-- C5: the rate-limited client never issues a request during a mandated
cooldown — after a 429 whose retry-after header is N ms, the next request's
issue time is at least N ms after the throttled request; and `acquire`,
called before every request, waits past any pending reset time and, when no
requests remain with a known time interval, waits out that interval. -/
theorem rate_limit_cooldown :
    (∀ (rl : RateLimiter) (now : Nat) (r : WResponse) (rest : List WResponse),
      r.status429 = true → 0 < r.headers.retry_after →
      ∃ t1 t2 ts, (make_request rl now (r :: rest)).2.2 = t1 :: t2 :: ts ∧
        t1 + r.headers.retry_after ≤ t2) ∧
    (∀ (rl : RateLimiter) (rt now : Nat), rl.reset_time = some rt → rt ≤ (acquire rl now).2) ∧
    (∀ (rl : RateLimiter) (now : Nat), rl.reset_time = none → rl.remaining_requests = 0 →
      0 < rl.time_interval → (acquire rl now).2 = now + rl.time_interval) := by
  refine ⟨?_, acquire_reset, acquire_interval⟩
  intro rl now r rest h429 hN
  have hreset : (update_limits (acquire rl now).1 r.headers (acquire rl now).2).reset_time
      = some ((acquire rl now).2 + r.headers.retry_after) := by
    unfold update_limits
    rw [if_pos hN]
  have hreset3 : (handle429 (update_limits (acquire rl now).1 r.headers (acquire rl now).2) r).reset_time
      = some ((acquire rl now).2 + r.headers.retry_after) := by
    unfold handle429
    cases r.error_code_1073 <;> simp [hreset]
  have hwait : (acquire rl now).2 + r.headers.retry_after ≤
      (acquire (handle429 (update_limits (acquire rl now).1 r.headers (acquire rl now).2) r)
        (acquire rl now).2).2 :=
    acquire_reset _ _ _ hreset3
  obtain ⟨t2, ts, hts, ht2⟩ := make_request_head
    (acquire (handle429 (update_limits (acquire rl now).1 r.headers (acquire rl now).2) r)
      (acquire rl now).2).1
    (acquire (handle429 (update_limits (acquire rl now).1 r.headers (acquire rl now).2) r)
      (acquire rl now).2).2
    rest
  refine ⟨(acquire rl now).2, t2, ts, ?_, Nat.le_trans hwait ht2⟩
  simp only [make_request, h429, if_true]
  rw [hts]

theorem rate_limit_cooldown_witness :
    (∃ t1 t2 ts,
      (make_request { remaining_requests := 1, limit := 1, time_interval := 0, reset_time := none }
          0
          [{ status429 := true,
             headers := { rate_limit_remaining := 1, rate_limit := 1,
                          retry_time_interval := 0, retry_after := 2000 },
             error_code_1073 := false }]).2.2 = t1 :: t2 :: ts ∧ t1 + 2000 ≤ t2) ∧
    1500 ≤ (acquire { remaining_requests := 0, limit := 3, time_interval := 0,
                      reset_time := some 1500 } 0).2 ∧
    (acquire { remaining_requests := 0, limit := 3, time_interval := 10000,
               reset_time := none } 5).2 = 5 + 10000 :=
  ⟨rate_limit_cooldown.1 _ 0 _ [] rfl (by decide),
   rate_limit_cooldown.2.1 _ 1500 0 rfl,
   rate_limit_cooldown.2.2 _ 5 rfl rfl (by decide)⟩

/-! ## Batch product search and matcher -/

theorem collectBatch_map (catalog : String → List CatalogRow) (batch : List String) :
    collectBatch (batch.map (fun n => (n, search_product catalog n))) =
      (batch.filterMap (foundOf catalog), batch.filter (fun n => (catalog n).isEmpty)) := by
  induction batch with
  | nil => rfl
  | cons n rest ih =>
      cases hc : catalog n with
      | nil =>
          have hsp : search_product catalog n = Except.error ("Product not found: " ++ n) := by
            unfold search_product
            rw [hc]
          simp [collectBatch, hsp, ih, List.filterMap_cons, List.filter_cons, foundOf, hc]
      | cons r rs =>
          have hsp : search_product catalog n = Except.ok
              { id := r.id, name := r.name, things := r.things, purchase_price := none } := by
            unfold search_product
            rw [hc]
          simp [collectBatch, hsp, ih, List.filterMap_cons, List.filter_cons, foundOf, hc]

theorem search_products_spec_aux (catalog : String → List CatalogRow) :
    ∀ (k : Nat) (names : List String), names.length ≤ k →
      search_products catalog names =
        (names.filterMap (foundOf catalog), names.filter (fun n => (catalog n).isEmpty)) := by
  intro k
  induction k with
  | zero =>
      intro names hlen
      have hn : names = [] := List.length_eq_zero.mp (Nat.le_zero.mp hlen)
      subst hn
      simp [search_products]
  | succ k ih =>
      intro names hlen
      by_cases hn : names = []
      · subst hn
        simp [search_products]
      · have hpos : 0 < names.length := List.length_pos.mpr hn
        have hdrop : (names.drop 3).length ≤ k := by
          rw [List.length_drop]
          omega
        rw [search_products.eq_def]
        rw [dif_neg hn]
        simp only [collectBatch_map, ih (names.drop 3) hdrop]
        rw [← List.filterMap_append, ← List.filter_append, List.take_append_drop]

/-- C6: `search_products` partitions the names into (found products,
not-found names) — a name with zero catalog hits lands in `not_found` while
the other names' matches are still returned, the batch call never raising —
and on the concrete example `["A","B"]` with "A" missing it returns
`not_found = ["A"]` and only B's match. -/
theorem batch_search_partition :
    (∀ (catalog : String → List CatalogRow) (names : List String),
      search_products catalog names =
        (names.filterMap (foundOf catalog), names.filter (fun n => (catalog n).isEmpty))) ∧
    search_products
        (fun n => if n = "B" then [{ id := some "b1", name := "B match", things := none }] else [])
        ["A", "B"]
      = ([{ id := some "b1", name := "B match", things := none, purchase_price := none }],
         ["A"]) := by
  have hmain : ∀ (catalog : String → List CatalogRow) (names : List String),
      search_products catalog names =
        (names.filterMap (foundOf catalog), names.filter (fun n => (catalog n).isEmpty)) :=
    fun catalog names => search_products_spec_aux catalog names.length names (Nat.le_refl _)
  refine ⟨hmain, ?_⟩
  rw [hmain]
  decide

/-- C7: the matcher pairs each row with the first catalog product whose
serial-number list contains the row's serial (synthesizing catalog id, row
name, singleton serials, row price), and a row contained in no catalog
product's serial list goes to `unmatched`, never to the prepared products —
as on the concrete `P1 {things := ["SN1"]}` versus `{serial := "SN2"}`
example. -/
theorem matcher_partition :
    (∀ (rows : List CsvRow) (products : List WarehouseProduct),
      prepare_products rows products =
        (rows.filterMap (fun row => (products.find? (rowMatches row)).map (synthProduct row)),
         rows.filter (fun row => (products.find? (rowMatches row)).isNone))) ∧
    prepare_products
        [{ idx := none, serial_number := "SN2", product_name := "R", purchase_price := none }]
        [{ id := some "P1", name := "P1", things := some ["SN1"], purchase_price := none }]
      = ([], [{ idx := none, serial_number := "SN2", product_name := "R",
                purchase_price := none }]) := by
  constructor
  · intro rows products
    induction rows with
    | nil => rfl
    | cons row rest ih =>
        cases hf : products.find? (rowMatches row) with
        | none =>
            simp [prepare_products, hf, ih, List.filterMap_cons, List.filter_cons]
        | some mp =>
            simp [prepare_products, hf, ih, List.filterMap_cons, List.filter_cons]
  · decide

end Storekeeper
